import Mathlib

/-!
# Server lifecycle orchestrator (`backend/internal/app`)

Shallow embedding of `server.go` (`NewServer`, `Server.Start`, `Server.Stop`)
and `cors.go` (`UseCORS`).

Collaborators living outside the package (`sqlx.Connect`, `os.MkdirAll`,
`filepath.Join`, `matching.NewHub`, `Engine.RecoverFromWAL`, the close
operations, `http.Server.ListenAndServe` and `Shutdown`) are supplied by an
environment `Env` that fixes their outcome; every call the orchestrator makes
is appended, in program order, to an effect trace.  `cors.New`, which `UseCORS`
calls, is embedded with its validation of the origin list (a failed validation
is a Go panic) and its normalisation of the origins.  A Go `error` is an
`Option GoError`, `none` being `nil`; a Go `*Server` is an `Option Server`.
-/

namespace App

/-! ## Data model -/

/-- Non-nil Go `error` value. -/
structure GoError where
  msg : String
deriving DecidableEq, Repr

/-- Handle of a `*sqlx.DB` returned by `sqlx.Connect`. -/
structure DB where
  id : Nat
deriving DecidableEq, Repr

/-- Handle of a `*matching.Hub` returned by `matching.NewHub`. -/
structure Hub where
  id : Nat
deriving DecidableEq, Repr

/-- The `*matching.Engine` built by `matching.NewEngine(walPath, hub, db)`:
the engine is identified by the three values it was constructed from. -/
structure Engine where
  walPath : String
  hub : Hub
  db : DB
deriving DecidableEq, Repr

/-- Constructor `matching.NewEngine`. -/
def NewEngine (walPath : String) (hub : Hub) (db : DB) : Engine :=
  { walPath := walPath, hub := hub, db := db }

/-- Modelled from the spec: the declaration of `Config` is not part of the
source files.  `server.go` reads `DatabaseURL`, `WALDir`, `WALFile` and `Port`;
the spec lists, in addition, an ordered sequence of allowed origin strings. -/
structure Config where
  DatabaseURL : String
  WALDir : String
  WALFile : String
  Port : String
  AllowedOrigins : List String
deriving DecidableEq, Repr

/-- Go `time.Duration`: a count of nanoseconds. -/
abbrev Duration := Int

def Nanosecond : Duration := 1
def Microsecond : Duration := 1000 * Nanosecond
def Millisecond : Duration := 1000 * Microsecond
def Second : Duration := 1000 * Millisecond
def Minute : Duration := 60 * Second
def Hour : Duration := 60 * Minute

/-- The settings of a CORS policy: the fields of `cors.Config` that `UseCORS`
sets, and `AllowAllOrigins`, which `UseCORS` leaves at its zero value and
`cors.New` switches on when the origin list holds the wildcard `*`. -/
structure CorsConfig where
  AllowAllOrigins : Bool
  AllowOrigins : List String
  AllowMethods : List String
  AllowHeaders : List String
  ExposeHeaders : List String
  AllowCredentials : Bool
  MaxAge : Duration
deriving DecidableEq, Repr

/-- Whole seconds of the preflight cache duration of a policy. -/
def CorsConfig.maxAgeSeconds (c : CorsConfig) : Int :=
  c.MaxAge / Second

/-- Reason of the panic that `cors.New` raises on a configuration that does
not validate. -/
inductive CorsPanic where
  | allOriginsConflict
  | allOriginsDisabled
  | badOrigin
deriving DecidableEq, Repr

/-- Request interceptors attached to a `gin.Engine`.  `cors c` is the handler
returned by `cors.New`; `c` holds the settings the handler works with. -/
inductive Middleware where
  | logger
  | recovery
  | cors (c : CorsConfig)
deriving DecidableEq, Repr

/-- One call of `registerRoutes(group, engine, db, hub)`: the route group and
the three collaborators handed to the handlers. -/
structure RouteMount where
  group : String
  engine : Engine
  db : DB
  hub : Hub
deriving DecidableEq, Repr

/-- State of a `*gin.Engine`: the middleware chain, in installation order, and
the route registrations made on it. -/
structure Router where
  middleware : List Middleware
  mounts : List RouteMount
deriving DecidableEq, Repr

/-- Router `gin.Default()`: a fresh router with the logger and recovery
middleware attached. -/
def ginDefault : Router :=
  { middleware := [Middleware.logger, Middleware.recovery], mounts := [] }

/-- The CORS policies installed on a router, in installation order. -/
def Router.corsPolicies (r : Router) : List CorsConfig :=
  r.middleware.filterMap fun m =>
    match m with
    | Middleware.cors c => some c
    | _ => none

/-- The `http.Server` literal: listen address and handler. -/
structure HTTPServer where
  Addr : String
  Handler : Router
deriving DecidableEq, Repr

/-- The `Server` struct of `server.go`. -/
structure Server where
  cfg : Config
  httpServer : HTTPServer
  db : DB
  engine : Engine
  router : Router
  broadcastHub : Hub
deriving DecidableEq, Repr

/-- A `context.Context` as seen by `Stop`: whether its deadline has already
elapsed when the call is made. -/
structure Context where
  expired : Bool
deriving DecidableEq, Repr

/-- Effects performed by the orchestrator, one per call on a collaborator. -/
inductive Event where
  | dbConnect (driver url : String)
  | mkdirAll (path : String) (perm : Nat)
  | newHub (hub : Hub)
  | newEngine (walPath : String) (hub : Hub) (db : DB)
  | recoverFromWAL (engine : Engine)
  | ginDefault
  | useCORS (origins : List String)
  | group (path : String)
  | registerRoutes (group : String) (engine : Engine) (db : DB) (hub : Hub)
  | newHTTPServer (srv : HTTPServer)
  | goHubRun (hub : Hub)
  | listenAndServe (srv : HTTPServer)
  | engineClose (engine : Engine)
  | hubClose (hub : Hub)
  | dbClose (db : DB)
  | httpShutdown (srv : HTTPServer) (ctx : Context)
deriving DecidableEq, Repr

/-- Outcomes of the collaborators the orchestrator calls. -/
structure Env where
  connect : String → String → DB × Option GoError
  mkdirAll : String → Nat → Option GoError
  pathJoin : String → String → String
  newHub : Hub
  recoverFromWAL : Engine → Option GoError
  listenAndServe : HTTPServer → Option GoError
  engineClose : Engine → Option GoError
  hubClose : Hub → Option GoError
  dbClose : DB → Option GoError
  shutdown : HTTPServer → Context → Option GoError
  unicodeLower : Char → Char

/-- Result of `NewServer`: the two Go return values and the effect trace;
`panicked` is set when the call did not return because `UseCORS` panicked. -/
structure NewServerResult where
  server : Option Server
  err : Option GoError
  trace : List Event
  panicked : Option CorsPanic := none
deriving DecidableEq, Repr

/-- Result of `Start` and `Stop`: the returned error and the effect trace. -/
structure ErrResult where
  err : Option GoError
  trace : List Event
deriving DecidableEq, Repr

/-- Whether an event is a call of `Engine.RecoverFromWAL`. -/
def Event.isRecover : Event → Bool
  | Event.recoverFromWAL _ => true
  | _ => false

/-- Whether an event creates or starts the HTTP listener. -/
def Event.isListener : Event → Bool
  | Event.newHTTPServer _ => true
  | Event.listenAndServe _ => true
  | _ => false

/-- Whether an event releases a resource. -/
def Event.isRelease : Event → Bool
  | Event.engineClose _ => true
  | Event.hubClose _ => true
  | Event.dbClose _ => true
  | Event.httpShutdown _ _ => true
  | _ => false

/-! ## cors.go -/

/-- White space in the sense of Go `unicode.IsSpace`. -/
def isSpace (c : Char) : Bool :=
  c.toNat == 0x09 || c.toNat == 0x0A || c.toNat == 0x0B || c.toNat == 0x0C ||
  c.toNat == 0x0D || c.toNat == 0x20 || c.toNat == 0x85 || c.toNat == 0xA0 ||
  c.toNat == 0x1680 || (0x2000 ≤ c.toNat && c.toNat ≤ 0x200A) ||
  c.toNat == 0x2028 || c.toNat == 0x2029 || c.toNat == 0x202F || c.toNat == 0x205F ||
  c.toNat == 0x3000

/-- Go `strings.TrimSpace`: leading and trailing white space removed. -/
def trimSpace (s : String) : String :=
  String.mk ((s.data.dropWhile isSpace).reverse.dropWhile isSpace).reverse

/-- Go `unicode.ToLower` on one character: `A`..`Z` are shifted to `a`..`z`,
other ASCII characters are unchanged, and a character beyond ASCII goes through
the case table of the Unicode library, `lower`. -/
def toLowerRune (lower : Char → Char) (c : Char) : Char :=
  if c.toNat ≤ 0x7F then
    if 0x41 ≤ c.toNat ∧ c.toNat ≤ 0x5A then Char.ofNat (c.toNat + 0x20) else c
  else lower c

/-- Go `strings.ToLower`. -/
def ToLower (lower : Char → Char) (s : String) : String :=
  String.mk (s.data.map (toLowerRune lower))

/-- The `normalize` step of `cors.New`: every value trimmed and lower-cased,
later duplicates dropped, first occurrences kept in order. -/
def normalize (lower : Char → Char) (values : List String) : List String :=
  values.foldl
    (fun acc v =>
      if ToLower lower (trimSpace v) ∈ acc then acc else acc ++ [ToLower lower (trimSpace v)])
    []

/-- Whether `cors.New` accepts one origin: it contains `*`, or it starts with
one of the default schemas `http://`, `https://`. -/
def originAccepted (origin : String) : Bool :=
  origin.data.contains '*' ||
  "http://".data.isPrefixOf origin.data || "https://".data.isPrefixOf origin.data

/-- The `Validate` step of `cors.New` (no origin function is set by `UseCORS`):
the panic it leads to, if any. -/
def validate (config : CorsConfig) : Option CorsPanic :=
  if config.AllowAllOrigins && config.AllowOrigins.length > 0 then
    some CorsPanic.allOriginsConflict
  else if !config.AllowAllOrigins && config.AllowOrigins.length == 0 then
    some CorsPanic.allOriginsDisabled
  else if config.AllowOrigins.all originAccepted then none
  else some CorsPanic.badOrigin

/-- The call `cors.New(config)`: a panic when the configuration does not
validate; otherwise the settings of the returned handler, which allows every
origin when the list holds `*` and keeps the normalised origin list.  The
method and header lists are kept as given: on the literals of `UseCORS` the
case normalisation of the library returns them unchanged. -/
def corsNew (lower : Char → Char) (config : CorsConfig) : Except CorsPanic CorsConfig :=
  match validate config with
  | some p => Except.error p
  | none =>
    Except.ok
      { config with
        AllowAllOrigins := config.AllowAllOrigins || config.AllowOrigins.contains "*"
        AllowOrigins := normalize lower config.AllowOrigins }

/-- The policy value that `UseCORS` passes to `cors.New`. -/
def corsConfig (allowedOrigins : List String) : CorsConfig :=
  { AllowAllOrigins := false
    AllowOrigins := allowedOrigins
    AllowMethods := ["GET", "POST", "PUT", "DELETE", "OPTIONS"]
    AllowHeaders := ["Origin", "Content-Type", "Authorization"]
    ExposeHeaders := ["Content-Length"]
    AllowCredentials := true
    MaxAge := 12 * Hour }

/-- `UseCORS(r, allowedOrigins)`: `r.Use(cors.New(cors.Config{...}))`.  When
`cors.New` panics nothing is attached to the router. -/
def UseCORS (env : Env) (r : Router) (allowedOrigins : List String) :
    Except CorsPanic Router :=
  match corsNew env.unicodeLower (corsConfig allowedOrigins) with
  | Except.error p => Except.error p
  | Except.ok handler => Except.ok { r with middleware := r.middleware ++ [Middleware.cors handler] }

/-! ## server.go -/

/-- Call `registerRoutes(api, engine, db, hub)` on the group `api` of `r`.  The
handlers it installs are not part of the source files; the router records the
call. -/
def registerRoutes (r : Router) (group : String) (engine : Engine) (db : DB) (hub : Hub) :
    Router :=
  { r with mounts := r.mounts ++ [{ group := group, engine := engine, db := db, hub := hub }] }

/-- The origins literal passed to `UseCORS` in `NewServer`. -/
def frontendOrigins : List String :=
  ["http://localhost:5173", "https://your-vercel-domain.vercel.app"]

/-- The call `fmt.Sprintf("%s", s)` on a string. -/
def sprintfS (s : String) : String := s

/-- `NewServer(cfg)`. -/
def NewServer (env : Env) (cfg : Config) : NewServerResult :=
  let conn := env.connect "postgres" cfg.DatabaseURL
  let db := conn.1
  let t1 := [Event.dbConnect "postgres" cfg.DatabaseURL]
  match conn.2 with
  | some err => { server := none, err := some err, trace := t1 }
  | none =>
    let t2 := t1 ++ [Event.mkdirAll cfg.WALDir 0o755]
    match env.mkdirAll cfg.WALDir 0o755 with
    | some err => { server := none, err := some err, trace := t2 }
    | none =>
      let walPath := env.pathJoin cfg.WALDir cfg.WALFile
      let hub := env.newHub
      let engine := NewEngine walPath hub db
      let t3 := t2 ++ [Event.newHub hub, Event.newEngine walPath hub db,
        Event.recoverFromWAL engine]
      match env.recoverFromWAL engine with
      | some err => { server := none, err := some err, trace := t3 }
      | none =>
        let r := ginDefault
        let t4 := t3 ++ [Event.ginDefault,
          Event.useCORS ["http://localhost:5173", "https://your-vercel-domain.vercel.app"]]
        match UseCORS env r ["http://localhost:5173", "https://your-vercel-domain.vercel.app"] with
        | Except.error p => { server := none, err := none, trace := t4, panicked := some p }
        | Except.ok r =>
          let r := registerRoutes r "/api" engine db hub
          let srv : HTTPServer := { Addr := sprintfS cfg.Port, Handler := r }
          { server := some
              { cfg := cfg
                httpServer := srv
                db := db
                engine := engine
                router := r
                broadcastHub := hub }
            err := none
            trace := t4 ++ [Event.group "/api", Event.registerRoutes "/api" engine db hub,
              Event.newHTTPServer srv] }

/-- `(s *Server) Start()`. -/
def Server.Start (env : Env) (s : Server) : ErrResult :=
  { err := env.listenAndServe s.httpServer
    trace := [Event.goHubRun s.broadcastHub, Event.listenAndServe s.httpServer] }

/-- `(s *Server) Stop(ctx)`.  The results of the first three calls are
discarded; the result of `Shutdown` is returned. -/
def Server.Stop (env : Env) (s : Server) (ctx : Context) : ErrResult :=
  let _ := env.engineClose s.engine
  let _ := env.hubClose s.broadcastHub
  let _ := env.dbClose s.db
  { err := env.shutdown s.httpServer ctx
    trace := [Event.engineClose s.engine, Event.hubClose s.broadcastHub,
      Event.dbClose s.db, Event.httpShutdown s.httpServer ctx] }

/-- A caller that constructs the server and, when construction returned a
server and no error, starts it: `NewServer` followed by `Start`. -/
def NewServerThenStart (env : Env) (cfg : Config) : ErrResult :=
  let r := NewServer env cfg
  match r.err with
  | some err => { err := some err, trace := r.trace }
  | none =>
    match r.server with
    | none => { err := none, trace := r.trace }
    | some s =>
      let st := s.Start env
      { err := st.err, trace := r.trace ++ st.trace }

/-! ## Concrete collaborators used to exercise the definitions -/

def sampleConfig : Config :=
  { DatabaseURL := "postgres://exchange@db/exchange"
    WALDir := "data/wal"
    WALFile := "orders.wal"
    Port := ":8080"
    AllowedOrigins := ["https://exchange.example.com"] }

/-- Every collaborator succeeds. -/
def envOk : Env :=
  { connect := fun _ _ => ({ id := 1 }, none)
    mkdirAll := fun _ _ => none
    pathJoin := fun d f => d ++ "/" ++ f
    newHub := { id := 2 }
    recoverFromWAL := fun _ => none
    listenAndServe := fun _ => some { msg := "http: Server closed" }
    engineClose := fun _ => none
    hubClose := fun _ => none
    dbClose := fun _ => none
    shutdown := fun _ _ => none
    unicodeLower := fun c => c }

/-- The database cannot be reached. -/
def envConnectFails : Env :=
  { envOk with connect := fun _ _ => ({ id := 0 }, some { msg := "connection refused" }) }

/-- The WAL directory cannot be created. -/
def envMkdirFails : Env :=
  { envOk with mkdirAll := fun _ _ => some { msg := "permission denied" } }

/-- WAL replay fails. -/
def envRecoverFails : Env :=
  { envOk with recoverFromWAL := fun _ => some { msg := "corrupt WAL record" } }

/-- Closing the database fails, the listener shuts down cleanly. -/
def envDbCloseFails : Env :=
  { envOk with dbClose := fun _ => some { msg := "sql: close failed" } }

/-- The listener shutdown runs into an expired deadline. -/
def envShutdownTimesOut : Env :=
  { envOk with
    shutdown := fun _ ctx =>
      if ctx.expired then some { msg := "context deadline exceeded" } else none }

/-- The router of `NewServer` after `UseCORS`: the default middleware followed
by the CORS handler for the two frontend origins. -/
def frontendRouter : Router :=
  { ginDefault with
    middleware := ginDefault.middleware ++ [Middleware.cors (corsConfig frontendOrigins)] }

/-- The engine `NewServer` builds under `envOk` for `sampleConfig`. -/
def sampleEngine : Engine :=
  NewEngine "data/wal/orders.wal" { id := 2 } { id := 1 }

/-- The server `NewServer` returns under `envOk` for `sampleConfig`. -/
def sampleServer : Server :=
  let r := registerRoutes frontendRouter "/api" sampleEngine { id := 1 }
    { id := 2 }
  { cfg := sampleConfig
    httpServer := { Addr := ":8080", Handler := r }
    db := { id := 1 }
    engine := sampleEngine
    router := r
    broadcastHub := { id := 2 } }

/-- The server assembled on the success path. -/
def builtServer (env : Env) (cfg : Config) : Server :=
  let db := (env.connect "postgres" cfg.DatabaseURL).1
  let engine := NewEngine (env.pathJoin cfg.WALDir cfg.WALFile) env.newHub db
  let r := registerRoutes frontendRouter "/api" engine db env.newHub
  { cfg := cfg
    httpServer := { Addr := cfg.Port, Handler := r }
    db := db
    engine := engine
    router := r
    broadcastHub := env.newHub }

/-- The effect trace of the success path. -/
def builtTrace (env : Env) (cfg : Config) : List Event :=
  let s := builtServer env cfg
  [Event.dbConnect "postgres" cfg.DatabaseURL,
   Event.mkdirAll cfg.WALDir 0o755,
   Event.newHub s.broadcastHub,
   Event.newEngine (env.pathJoin cfg.WALDir cfg.WALFile) s.broadcastHub s.db,
   Event.recoverFromWAL s.engine,
   Event.ginDefault,
   Event.useCORS frontendOrigins,
   Event.group "/api",
   Event.registerRoutes "/api" s.engine s.db s.broadcastHub,
   Event.newHTTPServer s.httpServer]

/-! ## `cors.New` on the origin list -/

theorem validate_corsConfig_nil : validate (corsConfig []) = some CorsPanic.allOriginsDisabled := by
  rfl

theorem validate_corsConfig_of_accepted (L : List String) (hne : L ≠ [])
    (hall : ∀ o ∈ L, originAccepted o = true) : validate (corsConfig L) = none := by
  have hlen : ¬ L.length = 0 := fun h => hne (List.length_eq_zero.mp h)
  have hall2 : L.all originAccepted = true := List.all_eq_true.mpr hall
  simp [validate, corsConfig, hlen, hall2]

theorem validate_corsConfig_of_rejected (L : List String) (hne : L ≠ [])
    (hbad : ∃ o ∈ L, originAccepted o = false) :
    validate (corsConfig L) = some CorsPanic.badOrigin := by
  have hlen : ¬ L.length = 0 := fun h => hne (List.length_eq_zero.mp h)
  have hall2 : ¬ (L.all originAccepted = true) := by
    intro h
    obtain ⟨o, ho, hf⟩ := hbad
    have := List.all_eq_true.mp h o ho
    simp [hf] at this
  simp only [Bool.not_eq_true] at hall2
  simp [validate, corsConfig, hlen, hall2]

/-- Appending the values not yet seen leaves a duplicate-free list of fixed
points unchanged. -/
theorem foldl_distinct_eq (f : String → String) (L : List String) :
    ∀ acc : List String, (∀ v ∈ L, f v = v) → (acc ++ L).Nodup →
      L.foldl (fun acc v => if f v ∈ acc then acc else acc ++ [f v]) acc = acc ++ L := by
  induction L with
  | nil => intro acc _ _; simp
  | cons v L ih =>
    intro acc hf hn
    have hv : f v = v := hf v (List.mem_cons_self v L)
    have hnot : v ∉ acc := by
      intro hmem
      have hd := (List.nodup_append.mp hn).2.2
      exact hd hmem (List.mem_cons_self v L)
    have hn2 : ((acc ++ [v]) ++ L).Nodup := by simpa using hn
    have := ih (acc ++ [v]) (fun w hw => hf w (List.mem_cons_of_mem v hw)) hn2
    simp only [List.foldl_cons, hv, hnot, if_false]
    simpa using this

/-- A duplicate-free list of origins that are already trimmed and lower-case is
its own normal form. -/
theorem normalize_eq_self (lower : Char → Char) (L : List String)
    (hf : ∀ o ∈ L, ToLower lower (trimSpace o) = o) (hn : L.Nodup) :
    normalize lower L = L := by
  have := foldl_distinct_eq (fun v => ToLower lower (trimSpace v)) L [] hf (by simpa using hn)
  simpa [normalize] using this

/-- On the two frontend origins of `NewServer`, `cors.New` validates and keeps
the list as written. -/
theorem UseCORS_frontendOrigins (env : Env) (r : Router) :
    UseCORS env r ["http://localhost:5173", "https://your-vercel-domain.vercel.app"] =
      Except.ok
        { r with
          middleware := r.middleware ++ [Middleware.cors (corsConfig frontendOrigins)] } := by
  rfl

/-! ## Characterisation of `NewServer` on each path -/

theorem NewServer_of_connect_error (env : Env) (cfg : Config) (e : GoError)
    (h : (env.connect "postgres" cfg.DatabaseURL).2 = some e) :
    NewServer env cfg =
      { server := none, err := some e,
        trace := [Event.dbConnect "postgres" cfg.DatabaseURL] } := by
  simp [NewServer, h]

theorem NewServer_of_mkdir_error (env : Env) (cfg : Config) (e : GoError)
    (hc : (env.connect "postgres" cfg.DatabaseURL).2 = none)
    (hm : env.mkdirAll cfg.WALDir 0o755 = some e) :
    NewServer env cfg =
      { server := none, err := some e,
        trace := [Event.dbConnect "postgres" cfg.DatabaseURL,
          Event.mkdirAll cfg.WALDir 0o755] } := by
  simp [NewServer, hc, hm]

theorem NewServer_of_recover_error (env : Env) (cfg : Config) (e : GoError)
    (hc : (env.connect "postgres" cfg.DatabaseURL).2 = none)
    (hm : env.mkdirAll cfg.WALDir 0o755 = none)
    (hr : env.recoverFromWAL (NewEngine (env.pathJoin cfg.WALDir cfg.WALFile) env.newHub
      (env.connect "postgres" cfg.DatabaseURL).1) = some e) :
    NewServer env cfg =
      { server := none, err := some e,
        trace := [Event.dbConnect "postgres" cfg.DatabaseURL,
          Event.mkdirAll cfg.WALDir 0o755,
          Event.newHub env.newHub,
          Event.newEngine (env.pathJoin cfg.WALDir cfg.WALFile) env.newHub
            (env.connect "postgres" cfg.DatabaseURL).1,
          Event.recoverFromWAL (NewEngine (env.pathJoin cfg.WALDir cfg.WALFile) env.newHub
            (env.connect "postgres" cfg.DatabaseURL).1)] } := by
  simp [NewServer, hc, hm, hr]

theorem NewServer_of_success (env : Env) (cfg : Config)
    (hc : (env.connect "postgres" cfg.DatabaseURL).2 = none)
    (hm : env.mkdirAll cfg.WALDir 0o755 = none)
    (hr : env.recoverFromWAL (NewEngine (env.pathJoin cfg.WALDir cfg.WALFile) env.newHub
      (env.connect "postgres" cfg.DatabaseURL).1) = none) :
    NewServer env cfg =
      { server := some (builtServer env cfg), err := none, trace := builtTrace env cfg } := by
  simp [NewServer, hc, hm, hr, UseCORS_frontendOrigins, builtServer, builtTrace, frontendRouter,
    frontendOrigins, sprintfS]

/-- A returned server means that all three fallible steps succeeded. -/
theorem NewServer_server_some (env : Env) (cfg : Config) (s : Server)
    (h : (NewServer env cfg).server = some s) :
    (env.connect "postgres" cfg.DatabaseURL).2 = none ∧
    env.mkdirAll cfg.WALDir 0o755 = none ∧
    env.recoverFromWAL (NewEngine (env.pathJoin cfg.WALDir cfg.WALFile) env.newHub
      (env.connect "postgres" cfg.DatabaseURL).1) = none ∧
    s = builtServer env cfg := by
  cases hc : (env.connect "postgres" cfg.DatabaseURL).2 with
  | some e => rw [NewServer_of_connect_error env cfg e hc] at h; simp at h
  | none =>
    cases hm : env.mkdirAll cfg.WALDir 0o755 with
    | some e => rw [NewServer_of_mkdir_error env cfg e hc hm] at h; simp at h
    | none =>
      cases hr : env.recoverFromWAL (NewEngine (env.pathJoin cfg.WALDir cfg.WALFile)
          env.newHub (env.connect "postgres" cfg.DatabaseURL).1) with
      | some e => rw [NewServer_of_recover_error env cfg e hc hm hr] at h; simp at h
      | none =>
        rw [NewServer_of_success env cfg hc hm hr] at h
        simp at h
        exact ⟨rfl, rfl, rfl, h.symm⟩

/-! ## Construction -/

/-- C1: for every configuration and every outcome of the collaborators,
`NewServer` returns (it does not panic) either a nil server with a non-nil
error, or a non-nil server with a nil error; in the second case the fields of
the server are the configuration passed in, the database handle returned by
the connect call, the hub and the engine constructed in the call, the router
built in the call (the default router, with the CORS handler that `UseCORS`
attached and the routes registered) and the HTTP server built on that router
and the configured port. -/
theorem NewServer_server_or_error (env : Env) (cfg : Config) :
    (NewServer env cfg).panicked = none ∧
    (((NewServer env cfg).server = none ∧ (NewServer env cfg).err ≠ none) ∨
    ((NewServer env cfg).err = none ∧
      ∃ s, (NewServer env cfg).server = some s ∧
        s.cfg = cfg ∧
        s.db = (env.connect "postgres" cfg.DatabaseURL).1 ∧
        s.broadcastHub = env.newHub ∧
        s.engine = NewEngine (env.pathJoin cfg.WALDir cfg.WALFile) env.newHub
          (env.connect "postgres" cfg.DatabaseURL).1 ∧
        (∃ r,
          UseCORS env ginDefault
            ["http://localhost:5173", "https://your-vercel-domain.vercel.app"] = Except.ok r ∧
          s.router = registerRoutes r "/api" s.engine s.db s.broadcastHub) ∧
        s.httpServer = { Addr := cfg.Port, Handler := s.router })) := by
  cases hc : (env.connect "postgres" cfg.DatabaseURL).2 with
  | some e => rw [NewServer_of_connect_error env cfg e hc]; simp
  | none =>
    cases hm : env.mkdirAll cfg.WALDir 0o755 with
    | some e => rw [NewServer_of_mkdir_error env cfg e hc hm]; simp
    | none =>
      cases hr : env.recoverFromWAL (NewEngine (env.pathJoin cfg.WALDir cfg.WALFile)
          env.newHub (env.connect "postgres" cfg.DatabaseURL).1) with
      | some e => rw [NewServer_of_recover_error env cfg e hc hm hr]; simp
      | none =>
        rw [NewServer_of_success env cfg hc hm hr]
        exact ⟨rfl, Or.inr ⟨rfl, builtServer env cfg, rfl, rfl, rfl, rfl, rfl,
          ⟨frontendRouter, UseCORS_frontendOrigins env ginDefault, rfl⟩, rfl⟩⟩

/-- C2: when the database connect step fails with error `e`, `NewServer`
returns a nil server and exactly `e`, and the connect call is the only effect:
no directory is created, no hub or engine is constructed, no recovery is
attempted. -/
theorem NewServer_connect_failure_stops (env : Env) (cfg : Config) (e : GoError)
    (h : (env.connect "postgres" cfg.DatabaseURL).2 = some e) :
    (NewServer env cfg).server = none ∧
    (NewServer env cfg).err = some e ∧
    (NewServer env cfg).trace = [Event.dbConnect "postgres" cfg.DatabaseURL] ∧
    (∀ path perm, Event.mkdirAll path perm ∉ (NewServer env cfg).trace) ∧
    (∀ hub, Event.newHub hub ∉ (NewServer env cfg).trace) ∧
    (∀ walPath hub db, Event.newEngine walPath hub db ∉ (NewServer env cfg).trace) ∧
    (∀ engine, Event.recoverFromWAL engine ∉ (NewServer env cfg).trace) := by
  rw [NewServer_of_connect_error env cfg e h]
  simp

theorem NewServer_connect_failure_stops_witness :
    (NewServer envConnectFails sampleConfig).server = none ∧
    (NewServer envConnectFails sampleConfig).err = some { msg := "connection refused" } ∧
    (NewServer envConnectFails sampleConfig).trace =
      [Event.dbConnect "postgres" sampleConfig.DatabaseURL] ∧
    (∀ path perm, Event.mkdirAll path perm ∉ (NewServer envConnectFails sampleConfig).trace) ∧
    (∀ hub, Event.newHub hub ∉ (NewServer envConnectFails sampleConfig).trace) ∧
    (∀ walPath hub db,
      Event.newEngine walPath hub db ∉ (NewServer envConnectFails sampleConfig).trace) ∧
    (∀ engine, Event.recoverFromWAL engine ∉ (NewServer envConnectFails sampleConfig).trace) :=
  NewServer_connect_failure_stops envConnectFails sampleConfig
    { msg := "connection refused" } rfl

/-- C3 fails as stated: with a database that connects and a WAL directory that
cannot be created, `NewServer` returns its error while the connection it
opened has not been closed. -/
theorem NewServer_mkdir_failure_leaves_db_open :
    (envMkdirFails.connect "postgres" sampleConfig.DatabaseURL).2 = none ∧
    envMkdirFails.mkdirAll sampleConfig.WALDir 0o755 = some { msg := "permission denied" } ∧
    (NewServer envMkdirFails sampleConfig).server = none ∧
    (NewServer envMkdirFails sampleConfig).err = some { msg := "permission denied" } ∧
    Event.dbClose (envMkdirFails.connect "postgres" sampleConfig.DatabaseURL).1 ∉
      (NewServer envMkdirFails sampleConfig).trace := by
  refine ⟨rfl, rfl, ?_⟩
  rw [NewServer_of_mkdir_error envMkdirFails sampleConfig { msg := "permission denied" } rfl rfl]
  simp

/-- C3 as amended: when `NewServer` fails after the database connection has
been opened, it returns a nil server and the error of the failing step, and
its effect trace ends at the failing step: when directory creation fails the
trace is the connect call followed by the `MkdirAll` call, when recovery fails
it is these two followed by the construction of the hub and the engine and the
`RecoverFromWAL` call.  In both cases the trace contains no release of the
database, the engine or the hub. -/
theorem NewServer_late_failure_no_release (env : Env) (cfg : Config) (e : GoError)
    (hc : (env.connect "postgres" cfg.DatabaseURL).2 = none)
    (hf : env.mkdirAll cfg.WALDir 0o755 = some e ∨
      (env.mkdirAll cfg.WALDir 0o755 = none ∧
        env.recoverFromWAL (NewEngine (env.pathJoin cfg.WALDir cfg.WALFile) env.newHub
          (env.connect "postgres" cfg.DatabaseURL).1) = some e)) :
    (NewServer env cfg).server = none ∧
    (NewServer env cfg).err = some e ∧
    (NewServer env cfg).panicked = none ∧
    (∀ ev ∈ (NewServer env cfg).trace, ev.isRelease = false) ∧
    (env.mkdirAll cfg.WALDir 0o755 = some e →
      (NewServer env cfg).trace =
        [Event.dbConnect "postgres" cfg.DatabaseURL, Event.mkdirAll cfg.WALDir 0o755]) ∧
    (env.mkdirAll cfg.WALDir 0o755 = none →
      (NewServer env cfg).trace =
        [Event.dbConnect "postgres" cfg.DatabaseURL,
         Event.mkdirAll cfg.WALDir 0o755,
         Event.newHub env.newHub,
         Event.newEngine (env.pathJoin cfg.WALDir cfg.WALFile) env.newHub
           (env.connect "postgres" cfg.DatabaseURL).1,
         Event.recoverFromWAL (NewEngine (env.pathJoin cfg.WALDir cfg.WALFile) env.newHub
           (env.connect "postgres" cfg.DatabaseURL).1)]) := by
  rcases hf with hm | ⟨hm, hr⟩
  · rw [NewServer_of_mkdir_error env cfg e hc hm]
    simp [Event.isRelease, hm]
  · rw [NewServer_of_recover_error env cfg e hc hm hr]
    simp [Event.isRelease, hm]

theorem NewServer_late_failure_no_release_witness :
    ((NewServer envMkdirFails sampleConfig).err = some { msg := "permission denied" } ∧
      (NewServer envMkdirFails sampleConfig).trace =
        [Event.dbConnect "postgres" "postgres://exchange@db/exchange",
         Event.mkdirAll "data/wal" 0o755]) ∧
    ((NewServer envRecoverFails sampleConfig).err = some { msg := "corrupt WAL record" } ∧
      (NewServer envRecoverFails sampleConfig).trace =
        [Event.dbConnect "postgres" "postgres://exchange@db/exchange",
         Event.mkdirAll "data/wal" 0o755,
         Event.newHub { id := 2 },
         Event.newEngine "data/wal/orders.wal" { id := 2 } { id := 1 },
         Event.recoverFromWAL sampleEngine]) :=
  ⟨⟨(NewServer_late_failure_no_release envMkdirFails sampleConfig
        { msg := "permission denied" } rfl (Or.inl rfl)).2.1,
    (NewServer_late_failure_no_release envMkdirFails sampleConfig
        { msg := "permission denied" } rfl (Or.inl rfl)).2.2.2.2.1 rfl⟩,
   ⟨(NewServer_late_failure_no_release envRecoverFails sampleConfig
        { msg := "corrupt WAL record" } rfl (Or.inr ⟨rfl, rfl⟩)).2.1,
    (NewServer_late_failure_no_release envRecoverFails sampleConfig
        { msg := "corrupt WAL record" } rfl (Or.inr ⟨rfl, rfl⟩)).2.2.2.2.2 rfl⟩⟩

/-! ## Teardown -/

/-- C4: for every server, every deadline context (expired or not) and every
outcome of the individual release steps, `Stop` performs exactly four release
steps, once each, in the order engine close, hub close, database close, HTTP
listener shutdown. -/
theorem Stop_performs_four_releases_in_order (env : Env) (s : Server) (ctx : Context) :
    (s.Stop env ctx).trace =
      [Event.engineClose s.engine, Event.hubClose s.broadcastHub, Event.dbClose s.db,
        Event.httpShutdown s.httpServer ctx] ∧
    (s.Stop env ctx).trace.Nodup ∧
    (∀ ev ∈ (s.Stop env ctx).trace, ev.isRelease = true) := by
  refine ⟨rfl, ?_, ?_⟩
  · simp [Server.Stop]
  · simp [Server.Stop, Event.isRelease]

/-- C5 fails as stated: when closing the database fails and the listener shuts
down cleanly, `Stop` returns nil. -/
theorem Stop_swallows_db_close_error :
    envDbCloseFails.dbClose sampleServer.db = some { msg := "sql: close failed" } ∧
    (sampleServer.Stop envDbCloseFails { expired := false }).err = none ∧
    Event.dbClose sampleServer.db ∈
      (sampleServer.Stop envDbCloseFails { expired := false }).trace := by
  refine ⟨rfl, rfl, ?_⟩
  simp [Server.Stop]

/-- C5 as amended: `Stop` returns exactly the outcome of the HTTP listener
shutdown, so it returns a non-nil error whenever that step fails; the outcomes
of the engine close, the hub close and the database close are discarded. -/
theorem Stop_returns_shutdown_outcome (env : Env) (s : Server) (ctx : Context) :
    (s.Stop env ctx).err = env.shutdown s.httpServer ctx ∧
    (env.shutdown s.httpServer ctx ≠ none → (s.Stop env ctx).err ≠ none) := by
  exact ⟨rfl, fun h => h⟩

theorem Stop_returns_shutdown_outcome_witness :
    (sampleServer.Stop envShutdownTimesOut { expired := true }).err =
        envShutdownTimesOut.shutdown sampleServer.httpServer { expired := true } ∧
    (sampleServer.Stop envShutdownTimesOut { expired := true }).err ≠ none :=
  ⟨(Stop_returns_shutdown_outcome envShutdownTimesOut sampleServer { expired := true }).1,
   (Stop_returns_shutdown_outcome envShutdownTimesOut sampleServer { expired := true }).2
     (by simp [envShutdownTimesOut, envOk])⟩

/-! ## Serving -/

theorem NewServerThenStart_of_error (env : Env) (cfg : Config) (e : GoError)
    (h : (NewServer env cfg).err = some e) :
    NewServerThenStart env cfg = { err := some e, trace := (NewServer env cfg).trace } := by
  simp [NewServerThenStart, h]

theorem NewServerThenStart_of_success (env : Env) (cfg : Config)
    (hc : (env.connect "postgres" cfg.DatabaseURL).2 = none)
    (hm : env.mkdirAll cfg.WALDir 0o755 = none)
    (hr : env.recoverFromWAL (NewEngine (env.pathJoin cfg.WALDir cfg.WALFile) env.newHub
      (env.connect "postgres" cfg.DatabaseURL).1) = none) :
    NewServerThenStart env cfg =
      { err := env.listenAndServe (builtServer env cfg).httpServer
        trace := builtTrace env cfg ++
          [Event.goHubRun (builtServer env cfg).broadcastHub,
           Event.listenAndServe (builtServer env cfg).httpServer] } := by
  simp [NewServerThenStart, NewServer_of_success env cfg hc hm hr, Server.Start]

/-- C6: in every run of `NewServer` followed by `Start` whose trace contains a
`ListenAndServe` call, the trace contains exactly one `RecoverFromWAL` call,
that call returned nil, and it comes before the `ListenAndServe` call (no
listener event precedes it); and when `RecoverFromWAL` fails, `NewServer`
returns no server and the run creates and starts no listener. -/
theorem recovery_precedes_serving (env : Env) (cfg : Config) :
    (∀ srv, Event.listenAndServe srv ∈ (NewServerThenStart env cfg).trace →
      ∃ engine before after,
        (NewServerThenStart env cfg).trace = before ++ Event.recoverFromWAL engine :: after ∧
        env.recoverFromWAL engine = none ∧
        (∀ ev ∈ before, ev.isRecover = false ∧ ev.isListener = false) ∧
        (∀ ev ∈ after, ev.isRecover = false) ∧
        Event.listenAndServe srv ∈ after) ∧
    (∀ e, env.recoverFromWAL (NewEngine (env.pathJoin cfg.WALDir cfg.WALFile) env.newHub
        (env.connect "postgres" cfg.DatabaseURL).1) = some e →
      (NewServer env cfg).server = none ∧
      ∀ ev ∈ (NewServerThenStart env cfg).trace, ev.isListener = false) := by
  cases hc : (env.connect "postgres" cfg.DatabaseURL).2 with
  | some e =>
    have hN := NewServer_of_connect_error env cfg e hc
    have hT := NewServerThenStart_of_error env cfg e (by rw [hN])
    rw [hT, hN]
    simp [Event.isListener]
  | none =>
    cases hm : env.mkdirAll cfg.WALDir 0o755 with
    | some e =>
      have hN := NewServer_of_mkdir_error env cfg e hc hm
      have hT := NewServerThenStart_of_error env cfg e (by rw [hN])
      rw [hT, hN]
      simp [Event.isListener]
    | none =>
      cases hr : env.recoverFromWAL (NewEngine (env.pathJoin cfg.WALDir cfg.WALFile)
          env.newHub (env.connect "postgres" cfg.DatabaseURL).1) with
      | some e =>
        have hN := NewServer_of_recover_error env cfg e hc hm hr
        have hT := NewServerThenStart_of_error env cfg e (by rw [hN])
        rw [hT, hN]
        simp [Event.isListener]
      | none =>
        rw [NewServerThenStart_of_success env cfg hc hm hr]
        refine ⟨?_, by simp⟩
        intro srv hsrv
        have hs : srv = (builtServer env cfg).httpServer := by
          simpa [builtTrace] using hsrv
        subst hs
        refine ⟨(builtServer env cfg).engine,
          [Event.dbConnect "postgres" cfg.DatabaseURL, Event.mkdirAll cfg.WALDir 0o755,
            Event.newHub (builtServer env cfg).broadcastHub,
            Event.newEngine (env.pathJoin cfg.WALDir cfg.WALFile)
              (builtServer env cfg).broadcastHub (builtServer env cfg).db],
          [Event.ginDefault, Event.useCORS frontendOrigins, Event.group "/api",
            Event.registerRoutes "/api" (builtServer env cfg).engine (builtServer env cfg).db
              (builtServer env cfg).broadcastHub,
            Event.newHTTPServer (builtServer env cfg).httpServer,
            Event.goHubRun (builtServer env cfg).broadcastHub,
            Event.listenAndServe (builtServer env cfg).httpServer], ?_, hr, ?_, ?_, ?_⟩
        · simp [builtTrace]
        · simp [Event.isRecover, Event.isListener]
        · simp [Event.isRecover]
        · simp

theorem recovery_precedes_serving_witness :
    (∃ engine before after,
        (NewServerThenStart envOk sampleConfig).trace =
          before ++ Event.recoverFromWAL engine :: after ∧
        envOk.recoverFromWAL engine = none ∧
        (∀ ev ∈ before, ev.isRecover = false ∧ ev.isListener = false) ∧
        (∀ ev ∈ after, ev.isRecover = false) ∧
        Event.listenAndServe sampleServer.httpServer ∈ after) ∧
    ((NewServer envRecoverFails sampleConfig).server = none ∧
      ∀ ev ∈ (NewServerThenStart envRecoverFails sampleConfig).trace, ev.isListener = false) :=
  ⟨(recovery_precedes_serving envOk sampleConfig).1 sampleServer.httpServer
      (by rw [NewServerThenStart_of_success envOk sampleConfig rfl rfl rfl]
          exact List.mem_append_right _ (List.mem_cons_of_mem _ (List.mem_singleton.mpr rfl))),
   (recovery_precedes_serving envRecoverFails sampleConfig).2
      { msg := "corrupt WAL record" } rfl⟩

/-- C7: for every server, `Start` launches the hub's `Run` loop as a separate
task exactly once, strictly before the single `ListenAndServe` call, and
returns exactly the outcome of `ListenAndServe`. -/
theorem Start_launches_hub_then_listens (env : Env) (s : Server) :
    (s.Start env).trace =
      [Event.goHubRun s.broadcastHub, Event.listenAndServe s.httpServer] ∧
    (s.Start env).err = env.listenAndServe s.httpServer := by
  exact ⟨rfl, rfl⟩

/-! ## CORS -/

/-- C8 fails as stated: for a configuration whose allowed origins are
`["https://exchange.example.com"]`, the policy installed on the router of the
returned server allows the two fixed frontend origins; the configured origin
is not among them. -/
theorem NewServer_cors_origins_not_from_config :
    sampleConfig.AllowedOrigins = ["https://exchange.example.com"] ∧
    ∃ s, (NewServer envOk sampleConfig).server = some s ∧
      s.router.corsPolicies.map CorsConfig.AllowOrigins =
        [["http://localhost:5173", "https://your-vercel-domain.vercel.app"]] ∧
      s.router.corsPolicies.map CorsConfig.AllowOrigins ≠ [sampleConfig.AllowedOrigins] ∧
      ∀ p ∈ s.router.corsPolicies, "https://exchange.example.com" ∉ p.AllowOrigins := by
  refine ⟨rfl, builtServer envOk sampleConfig, ?_, ?_, ?_, ?_⟩
  · rw [NewServer_of_success envOk sampleConfig rfl rfl rfl]
  · rfl
  · decide
  · decide

/-- C8 as amended: for every configuration, the router of a returned server
carries exactly one CORS policy, and its allowed origins are the fixed list
`http://localhost:5173`, `https://your-vercel-domain.vercel.app`, in that
order, whatever the configuration says; an origin is in the installed list if
and only if it is one of these two. -/
theorem NewServer_cors_origins_fixed (env : Env) (cfg : Config) (s : Server)
    (h : (NewServer env cfg).server = some s) :
    s.router.corsPolicies.map CorsConfig.AllowOrigins =
      [["http://localhost:5173", "https://your-vercel-domain.vercel.app"]] ∧
    Event.useCORS ["http://localhost:5173", "https://your-vercel-domain.vercel.app"] ∈
      (NewServer env cfg).trace ∧
    ∀ p ∈ s.router.corsPolicies, ∀ origin : String,
      origin ∈ p.AllowOrigins ↔
        (origin = "http://localhost:5173" ∨ origin = "https://your-vercel-domain.vercel.app") := by
  obtain ⟨hc, hm, hr, hs⟩ := NewServer_server_some env cfg s h
  subst hs
  rw [NewServer_of_success env cfg hc hm hr]
  refine ⟨rfl, ?_, ?_⟩
  · simp [builtTrace, frontendOrigins]
  · intro p hp origin
    have hp2 : p = corsConfig frontendOrigins := by
      simpa [builtServer, registerRoutes, frontendRouter, ginDefault, Router.corsPolicies]
        using hp
    subst hp2
    simp [corsConfig, frontendOrigins]

theorem NewServer_cors_origins_fixed_witness :
    sampleServer.router.corsPolicies.map CorsConfig.AllowOrigins =
      [["http://localhost:5173", "https://your-vercel-domain.vercel.app"]] ∧
    Event.useCORS ["http://localhost:5173", "https://your-vercel-domain.vercel.app"] ∈
      (NewServer envOk sampleConfig).trace ∧
    ∀ p ∈ sampleServer.router.corsPolicies, ∀ origin : String,
      origin ∈ p.AllowOrigins ↔
        (origin = "http://localhost:5173" ∨ origin = "https://your-vercel-domain.vercel.app") :=
  NewServer_cors_origins_fixed envOk sampleConfig sampleServer
    (by rw [NewServer_of_success envOk sampleConfig rfl rfl rfl]; rfl)

/-- C10 fails as stated: for the list `["http://a.example", "http://A.example"]`
the policy `UseCORS` installs has the single allowed origin
`http://a.example`, not the list passed in; and for the empty list `UseCORS`
panics and installs no policy. -/
theorem UseCORS_origins_not_verbatim :
    (∃ p : CorsConfig,
      UseCORS envOk ginDefault ["http://a.example", "http://A.example"] =
        Except.ok { ginDefault with
          middleware := ginDefault.middleware ++ [Middleware.cors p] } ∧
      p.AllowOrigins = ["http://a.example"] ∧
      p.AllowOrigins ≠ ["http://a.example", "http://A.example"]) ∧
    UseCORS envOk ginDefault [] = Except.error CorsPanic.allOriginsDisabled := by
  refine ⟨⟨_, rfl, ?_, ?_⟩, rfl⟩
  · decide
  · decide

/-- C10 as amended: for every list `L` of allowed origins, when `L` is empty,
or holds an origin that neither contains `*` nor starts with `http://` or
`https://`, `UseCORS` panics and installs nothing.  Otherwise `UseCORS`
appends to the middleware chain one policy whose allowed origins are `L` with
every origin trimmed and lower-cased and later duplicates dropped (this is `L`
itself when `L` is duplicate-free, trimmed and lower-case; no entry is added),
which allows all origins exactly when `L` holds `*`, whose allowed methods are
GET, POST, PUT, DELETE, OPTIONS, whose allowed request headers are Origin,
Content-Type, Authorization, whose exposed response headers are
Content-Length, which allows credentials, and whose preflight cache duration is
12 hours, that is 43200 seconds. -/
theorem UseCORS_installs_normalized_policy (env : Env) (r : Router) (L : List String) :
    (L = [] → UseCORS env r L = Except.error CorsPanic.allOriginsDisabled) ∧
    (L ≠ [] → (∃ o ∈ L, originAccepted o = false) →
      UseCORS env r L = Except.error CorsPanic.badOrigin) ∧
    (L ≠ [] → (∀ o ∈ L, originAccepted o = true) →
      ∃ p : CorsConfig,
        UseCORS env r L =
          Except.ok { r with middleware := r.middleware ++ [Middleware.cors p] } ∧
        p.AllowOrigins = normalize env.unicodeLower L ∧
        ((∀ o ∈ L, ToLower env.unicodeLower (trimSpace o) = o) → L.Nodup →
          p.AllowOrigins = L) ∧
        (p.AllowAllOrigins = true ↔ "*" ∈ L) ∧
        p.AllowMethods = ["GET", "POST", "PUT", "DELETE", "OPTIONS"] ∧
        p.AllowHeaders = ["Origin", "Content-Type", "Authorization"] ∧
        p.ExposeHeaders = ["Content-Length"] ∧
        p.AllowCredentials = true ∧
        p.MaxAge = 12 * Hour ∧
        p.MaxAge = 43200 * Second ∧
        p.maxAgeSeconds = 43200) := by
  refine ⟨?_, ?_, ?_⟩
  · intro h
    subst h
    simp [UseCORS, corsNew, validate_corsConfig_nil]
  · intro hne hbad
    simp [UseCORS, corsNew, validate_corsConfig_of_rejected L hne hbad]
  · intro hne hall
    refine ⟨{ corsConfig L with
        AllowAllOrigins := (corsConfig L).AllowAllOrigins || (corsConfig L).AllowOrigins.contains "*"
        AllowOrigins := normalize env.unicodeLower (corsConfig L).AllowOrigins },
      ?_, rfl, ?_, ?_, rfl, rfl, rfl, rfl, rfl, ?_, ?_⟩
    · simp [UseCORS, corsNew, validate_corsConfig_of_accepted L hne hall]
    · intro hf hn
      exact normalize_eq_self env.unicodeLower L hf hn
    · simp [corsConfig]
    · simp [corsConfig, Hour, Minute, Second]
      ring
    · simp [CorsConfig.maxAgeSeconds, corsConfig, Hour, Minute, Second, Millisecond, Microsecond,
        Nanosecond]

theorem UseCORS_installs_normalized_policy_witness :
    UseCORS envOk ginDefault [] = Except.error CorsPanic.allOriginsDisabled ∧
    UseCORS envOk ginDefault ["localhost:5173"] = Except.error CorsPanic.badOrigin ∧
    ∃ p : CorsConfig,
      UseCORS envOk ginDefault ["http://localhost:5173", "https://exchange.example.com"] =
        Except.ok { ginDefault with
          middleware := ginDefault.middleware ++ [Middleware.cors p] } ∧
      p.AllowOrigins = ["http://localhost:5173", "https://exchange.example.com"] ∧
      p.maxAgeSeconds = 43200 :=
  ⟨(UseCORS_installs_normalized_policy envOk ginDefault []).1 rfl,
   (UseCORS_installs_normalized_policy envOk ginDefault ["localhost:5173"]).2.1
      (by decide) ⟨"localhost:5173", by decide, by decide⟩,
   (UseCORS_installs_normalized_policy envOk ginDefault
      ["http://localhost:5173", "https://exchange.example.com"]).2.2
      (by decide) (by decide) |>.imp fun _ h =>
        ⟨h.1, h.2.2.1 (by decide) (by decide), h.2.2.2.2.2.2.2.2.2.2⟩⟩

/-! ## WAL wiring -/

/-- C9: whenever `NewServer` returns a server, its effect trace is the full
construction sequence, in which `MkdirAll` on `cfg.WALDir` with mode 0755
(owner rwx, group rx, other rx) precedes the construction of the engine; the
engine is constructed from the join of `cfg.WALDir` and `cfg.WALFile`, the hub
and the database handle that are stored in the returned server, and the same
engine, database handle and hub are passed to route registration. -/
theorem NewServer_wal_wiring (env : Env) (cfg : Config) (s : Server)
    (h : (NewServer env cfg).server = some s) :
    (NewServer env cfg).trace =
      [Event.dbConnect "postgres" cfg.DatabaseURL,
       Event.mkdirAll cfg.WALDir 0o755,
       Event.newHub s.broadcastHub,
       Event.newEngine (env.pathJoin cfg.WALDir cfg.WALFile) s.broadcastHub s.db,
       Event.recoverFromWAL s.engine,
       Event.ginDefault,
       Event.useCORS ["http://localhost:5173", "https://your-vercel-domain.vercel.app"],
       Event.group "/api",
       Event.registerRoutes "/api" s.engine s.db s.broadcastHub,
       Event.newHTTPServer s.httpServer] ∧
    s.engine = NewEngine (env.pathJoin cfg.WALDir cfg.WALFile) s.broadcastHub s.db ∧
    s.engine.walPath = env.pathJoin cfg.WALDir cfg.WALFile ∧
    s.engine.hub = s.broadcastHub ∧
    s.engine.db = s.db ∧
    s.db = (env.connect "postgres" cfg.DatabaseURL).1 ∧
    s.router.mounts =
      [{ group := "/api", engine := s.engine, db := s.db, hub := s.broadcastHub }] ∧
    (0o755 / 64 % 8 = 7 ∧ 0o755 / 8 % 8 = 5 ∧ 0o755 % 8 = 5) := by
  obtain ⟨hc, hm, hr, hs⟩ := NewServer_server_some env cfg s h
  subst hs
  rw [NewServer_of_success env cfg hc hm hr]
  exact ⟨rfl, rfl, rfl, rfl, rfl, rfl, rfl, by decide⟩

theorem NewServer_wal_wiring_witness :
    (NewServer envOk sampleConfig).trace =
      [Event.dbConnect "postgres" "postgres://exchange@db/exchange",
       Event.mkdirAll "data/wal" 0o755,
       Event.newHub { id := 2 },
       Event.newEngine "data/wal/orders.wal" { id := 2 } { id := 1 },
       Event.recoverFromWAL sampleEngine,
       Event.ginDefault,
       Event.useCORS ["http://localhost:5173", "https://your-vercel-domain.vercel.app"],
       Event.group "/api",
       Event.registerRoutes "/api" sampleEngine { id := 1 } { id := 2 },
       Event.newHTTPServer sampleServer.httpServer] ∧
    sampleServer.engine.walPath = "data/wal/orders.wal" :=
  ⟨(NewServer_wal_wiring envOk sampleConfig sampleServer
      (by rw [NewServer_of_success envOk sampleConfig rfl rfl rfl]; rfl)).1,
   by decide⟩

end App
